import Mathlib

/-!
Shallow embedding of the jarvis voice-assistant command pipeline
(`src/jarvis/core/nlp_processor.py`, `src/jarvis/core/command_dispatcher.py`,
`src/jarvis/core/event_loop.py`).

Modelling conventions, applied uniformly:
* Wall-clock instants (`datetime.now()`, cache ages, TTLs in hours) are
  rationals; elapsed execution times (`time.time() - start_time`) are not
  modelled and recorded as `0`.
* Python dicts become association lists with dict update/lookup semantics.
* The Python `re` module (standard library, external to this repository) is
  an oracle parameter: `Matcher` stands for `re.match pattern text` returning
  the tuple of capture groups, `Searcher` for the boolean outcome of
  `re.search pattern text`.  The repository's own pattern *data* is embedded
  verbatim.
* `hashlib.md5(...).hexdigest()` (also external) is an oracle parameter
  `keyHash`; every theorem about the cache holds for an arbitrary key
  function.
* The OpenAI client is an oracle `Remote`; `Option.none` covers every failure
  the Python code absorbs (transport error, unparseable JSON, bad fields).
* Exceptions the code cannot raise on the modelled paths are not modelled;
  fallible steps return `Option` / explicit failure results, exactly where
  the Python code returns them.
* `threading.Lock` (non-reentrant) is modelled by an explicit
  `history_lock_held` flag; acquiring a lock already held by the single
  pipeline thread can never succeed, which the dispatcher model surfaces as
  the `DOut.deadlock` outcome.
-/

namespace Jarvis

/-- Wall-clock instants, in hours (rational, so fractional ages exist). -/
abbrev Time := ℚ

/-- Values stored in a `Command.entities` mapping (Python dict values on the
modelled paths: strings, ints from `int(...)`, booleans, and `None`). -/
inductive EVal where
  | str (s : String)
  | int (n : Int)
  | bool (b : Bool)
  | null
deriving DecidableEq

/-- Python's `str(value)` rendering, used for f-string interpolation of an
entity value. -/
def EVal.toPyString : EVal → String
  | .str s => s
  | .int n => toString n
  | .bool b => if b then "True" else "False"
  | .null => "None"

/-- `entities`: a Python dict from string keys to values. -/
abbrev Entities := List (String × EVal)

/-- Python `dict.get(key, default)`. -/
def Entities.get (es : Entities) (k : String) (d : EVal) : EVal :=
  match es.lookup k with
  | some v => v
  | Option.none => d

/-- Python `entities.get(key, "").strip()` as used by the validator; on the
modelled paths the stored value is always a string (a non-string value would
raise in Python, which no claim exercises). -/
def Entities.getStr (es : Entities) (k : String) : String :=
  match Entities.get es k (EVal.str "") with
  | EVal.str s => s
  | _ => ""

/-- Characters removed by Python `str.strip()` with no argument (ASCII
whitespace; the exotic Unicode space classes never occur in this pipeline). -/
def isStripChar (c : Char) : Bool :=
  c = ' ' ∨ c = '\t' ∨ c = '\n' ∨ c = '\r' ∨ c = '\x0b' ∨ c = '\x0c'

/-- Python `str.strip()`: drop leading and trailing whitespace. -/
def pyStrip (s : String) : String :=
  ⟨((s.data.dropWhile isStripChar).reverse.dropWhile isStripChar).reverse⟩

/-- ASCII lowering of one character (`str.lower()` acts per character; the
commands handled here are ASCII). -/
def pyLowerChar (c : Char) : Char :=
  if 'A' ≤ c ∧ c ≤ 'Z' then Char.ofNat (c.toNat + 32) else c

/-- Python `str.lower()`. -/
def pyLower (s : String) : String :=
  ⟨s.data.map pyLowerChar⟩

/-- Python `ch in s` for a single character. -/
def pyHasChar (s : String) (c : Char) : Bool :=
  s.data.contains c

/-- Whether the first list is a prefix of the second (decidable, structural). -/
def listIsPrefixOf : List Char → List Char → Bool
  | [], _ => true
  | _ :: _, [] => false
  | a :: as, b :: bs => a = b && listIsPrefixOf as bs

/-- Substring occurrence at any position. -/
def listHasInfix (needle : List Char) : List Char → Bool
  | [] => listIsPrefixOf needle []
  | c :: cs => listIsPrefixOf needle (c :: cs) || listHasInfix needle cs

/-- Python `needle in haystack` substring test. -/
def strContains (haystack needle : String) : Bool :=
  listHasInfix needle.data haystack.data

/-- Python `s.split(sep)[-1]` for a one-character separator: the tail after
the last occurrence (the whole string when the separator is absent). -/
def pySplitLast (s : String) (sep : Char) : String :=
  ⟨(s.data.reverse.takeWhile (fun c => c ≠ sep)).reverse⟩

/-- Python `int(...)` on a string of decimal digits (the only shape the
matched `\\d+` groups can take). -/
def pyDigitsToNat (s : String) : Nat :=
  s.data.foldl (fun n c => n * 10 + (c.toNat - 48)) 0

/-- `CommandResult` from `nlp_processor.py` (the spec's `Command`). -/
structure CommandResult where
  intent : String
  entities : Entities
  confidence : ℚ
  requires_confirmation : Bool
  raw_text : String
  processing_method : String
  timestamp : Time
deriving DecidableEq

/-- `ExecutionResult` from `command_dispatcher.py`.  `data` is the optional
structured payload dict; `execution_time` is wall-clock elapsed time, not
modelled, hence always `0`. -/
structure ExecutionResult where
  success : Bool
  message : String
  data : Option Entities := Option.none
  error : Option String := Option.none
  execution_time : ℚ := 0
  timestamp : Time := 0
deriving DecidableEq

namespace CommandValidator

/-- `CommandValidator._validate_open_app`. -/
def validate_open_app (c : CommandResult) : Bool × Option String :=
  let app_name := pyStrip (Entities.getStr c.entities "app_name")
  if app_name = "" then
    (false, some "Application name required")
  else
    let dangerous_apps := ["regedit", "cmd", "powershell", "terminal", "taskmgr"]
    if pyLower app_name ∈ dangerous_apps.map pyLower then
      (false, some ("Cannot open " ++ app_name ++ " for security reasons"))
    else
      (true, Option.none)

/-- `CommandValidator._validate_close_app`. -/
def validate_close_app (c : CommandResult) : Bool × Option String :=
  let app_name := pyStrip (Entities.getStr c.entities "app_name")
  if app_name = "" then
    (false, some "Application name required")
  else
    (true, Option.none)

/-- `CommandValidator._validate_send_email`. -/
def validate_send_email (c : CommandResult) : Bool × Option String :=
  let recipient := pyStrip (Entities.getStr c.entities "recipient")
  let message := pyStrip (Entities.getStr c.entities "message")
  if recipient = "" then
    (false, some "Email recipient required")
  else if message = "" then
    (false, some "Email message required")
  else if ¬ (pyHasChar recipient '@')
      ∨ ¬ (pyHasChar (pySplitLast recipient '@') '.') then
    (false, some "Invalid email address")
  else
    (true, Option.none)

/-- `CommandValidator._validate_system_command`: system-altering commands must
already carry the confirmation flag; the validator never sets it itself (its
type returns only a verdict, the command is untouched). -/
def validate_system_command (c : CommandResult) : Bool × Option String :=
  if ¬ c.requires_confirmation then
    (false, some "System commands require confirmation")
  else
    (true, Option.none)

/-- `CommandValidator._validate_timer_command`.  Python's falsiness test
`not time_value` rejects `0`; a missing or non-numeric value is likewise
"Invalid time value". -/
def validate_timer_command (c : CommandResult) : Bool × Option String :=
  match Entities.get c.entities "time_value" EVal.null with
  | EVal.int n =>
    if n = 0 then (false, some "Invalid time value")
    else if n ≤ 0 then (false, some "Time must be positive")
    else
      let time_unit := pyLower (Entities.getStr c.entities "time_unit")
      if strContains time_unit "minute" then
        if 1440 < n then (false, some "Timer cannot exceed 24 hours")
        else (true, Option.none)
      else if strContains time_unit "hour" then
        if 24 < n then (false, some "Timer cannot exceed 24 hours")
        else (true, Option.none)
      else (true, Option.none)
  | _ => (false, some "Invalid time value")

/-- `CommandValidator._validate_search_command`. -/
def validate_search_command (c : CommandResult) : Bool × Option String :=
  let query := pyStrip (Entities.getStr c.entities "query")
  if query = "" then
    (false, some "Search query required")
  else if 1000 < query.data.length then
    (false, some "Search query too long")
  else
    (true, Option.none)

/-- `CommandValidator.validate_command`: global confidence/unknown gates, then
the per-intent check selected by `intent`. -/
def validate_command (c : CommandResult) : Bool × Option String :=
  if c.confidence < mkRat 3 10 then
    (false, some "Command confidence too low")
  else if c.intent = "unknown" then
    (false, some "Unknown command intent")
  else if c.intent = "open_app" then validate_open_app c
  else if c.intent = "close_app" then validate_close_app c
  else if c.intent = "send_email" then validate_send_email c
  else if c.intent = "shutdown_system" ∨ c.intent = "restart_system" then
    validate_system_command c
  else if c.intent = "set_timer" then validate_timer_command c
  else if c.intent = "search_web" ∨ c.intent = "search_youtube"
      ∨ c.intent = "search_wikipedia" then
    validate_search_command c
  else
    (true, Option.none)

end CommandValidator

namespace CommandDispatcher

/-- `CommandHistory` entry from `command_dispatcher.py`. -/
structure CommandHistory where
  command : CommandResult
  result : ExecutionResult
  timestamp : Time
deriving DecidableEq

/-- Mutable `CommandDispatcher` state: the bounded history, the execution
counters, and the (non-reentrant) `history_lock`, made explicit as the flag
`history_lock_held` — `true` exactly while the pipeline thread holds it. -/
structure DState where
  command_history : List CommandHistory
  max_history_size : Nat
  commands_executed : Nat
  commands_failed : Nat
  last_command_time : Option Time
  history_lock_held : Bool
deriving DecidableEq

/-- Observable events of a dispatch, for stating which calls happened:
`dispatchCalled c` marks entry into `dispatch_command` with `c` (hence a run
of the validator on `c`), `handlerInvoked i` marks the registered handler for
intent `i` being executed. -/
inductive DEvent where
  | dispatchCalled (c : CommandResult)
  | handlerInvoked (intent : String)
deriving DecidableEq

/-- Outcome of a stateful dispatcher operation: either a value, or the thread
blocks forever trying to re-acquire the non-reentrant `history_lock` it
already holds. -/
inductive DOut (α : Type) where
  | ok (a : α)
  | deadlock
deriving DecidableEq

/-- The registry view `get_command_handlers().get(intent)`: a total map from
intent to an optional handler (`None` both for unknown intents and for
handlers whose subsystem is absent).  Handlers obey the repository's handler
contract and return an `ExecutionResult`. -/
abbrev Handlers := String → Option (CommandResult → ExecutionResult)

/-- `CommandDispatcher._record_command`: acquires `history_lock`, appends the
entry, and trims the history to its last `max_history_size` elements
(`command_history[-max_history_size:]`).  Acquiring the lock while this very
thread already holds it blocks forever. -/
def record_command (c : CommandResult) (r : ExecutionResult) (now : Time)
    (s : DState) : DOut DState :=
  if s.history_lock_held then DOut.deadlock
  else
    let h := s.command_history ++ [⟨c, r, now⟩]
    let h' := if s.max_history_size < h.length
      then h.drop (h.length - s.max_history_size) else h
    DOut.ok { s with command_history := h' }

/-- `CommandDispatcher._execute_with_timeout`: the handler runs in a worker
and its result is awaited.  The wall-clock deadline is a real-time aspect
outside this model; on the modelled (non-timeout) path the handler's
`ExecutionResult` is returned unchanged (repository handlers return
`ExecutionResult`, so the `isinstance` wrapper passes it through). -/
def execute_with_timeout (handler : CommandResult → ExecutionResult)
    (c : CommandResult) : ExecutionResult :=
  handler c

/-- `CommandDispatcher.dispatch_command`: validate, look up the handler, gate
on `requires_confirmation`, execute, record, bump counters.  Returns the
outcome, and the list of observable events in order. -/
def dispatch_command (handlers : Handlers) (now : Time) (c : CommandResult)
    (s : DState) : DOut (ExecutionResult × DState) × List DEvent :=
  let evs := [DEvent.dispatchCalled c]
  match CommandValidator.validate_command c with
  | (false, err) =>
    (DOut.ok ({ success := false,
                message := "Command validation failed: " ++ err.getD "",
                error := err,
                execution_time := 0,
                timestamp := now }, s), evs)
  | (true, _) =>
    match handlers c.intent with
    | Option.none =>
      (DOut.ok ({ success := false,
                  message := "No handler available for command: " ++ c.intent,
                  error := some ("Unknown command intent: " ++ c.intent),
                  execution_time := 0,
                  timestamp := now }, s), evs)
    | some handler =>
      if c.requires_confirmation then
        (DOut.ok ({ success := false,
                    message := "Command '" ++ c.intent
                      ++ "' requires confirmation. Please confirm to proceed.",
                    data := some [("requires_confirmation", EVal.bool true)],
                    error := some "Confirmation required",
                    execution_time := 0,
                    timestamp := now }, s), evs)
      else
        let r := execute_with_timeout handler c
        match record_command c r now s with
        | DOut.deadlock => (DOut.deadlock, evs ++ [DEvent.handlerInvoked c.intent])
        | DOut.ok s1 =>
          let s2 := { s1 with
            commands_executed := s1.commands_executed + 1,
            last_command_time := some now }
          (DOut.ok (r, s2), evs ++ [DEvent.handlerInvoked c.intent])

/-- `CommandDispatcher._create_undo_command`: the fresh inverse `Command` for
the three reversible intents; `Option.none` for anything else. -/
def create_undo_command (now : Time) (oc : CommandResult) :
    Option CommandResult :=
  if oc.intent = "open_app" then
    some { intent := "close_app",
           entities := oc.entities,
           confidence := oc.confidence,
           requires_confirmation := false,
           raw_text := "Close "
             ++ (Entities.get oc.entities "app_name" (EVal.str "")).toPyString,
           processing_method := oc.processing_method,
           timestamp := now }
  else if oc.intent = "close_app" then
    some { intent := "open_app",
           entities := oc.entities,
           confidence := oc.confidence,
           requires_confirmation := false,
           raw_text := "Open "
             ++ (Entities.get oc.entities "app_name" (EVal.str "")).toPyString,
           processing_method := oc.processing_method,
           timestamp := now }
  else if oc.intent = "play_music" then
    some { intent := "pause_resume_music",
           entities := [],
           confidence := oc.confidence,
           requires_confirmation := false,
           raw_text := "Pause music",
           processing_method := oc.processing_method,
           timestamp := now }
  else
    Option.none

/-- The scan inside `undo_last_command`, over the history newest-first (the
Python `for entry in reversed(self.command_history)` loop): skip unsuccessful
entries; at the first successful one, either dispatch the synthesized inverse
(for a reversible intent) or report "Cannot undo".  The lock is held by the
caller throughout, so the state passed in has `history_lock_held = true`. -/
def undo_scan (handlers : Handlers) (now : Time) (s : DState) :
    List CommandHistory → DOut (ExecutionResult × DState) × List DEvent
  | [] =>
    (DOut.ok ({ success := false,
                message := "No successful commands to undo",
                timestamp := now }, s), [])
  | entry :: rest =>
    if entry.result.success then
      if entry.command.intent ∈ ["open_app", "close_app", "play_music"] then
        match create_undo_command now entry.command with
        | some uc => dispatch_command handlers now uc s
        | Option.none =>
          (DOut.ok ({ success := false,
                      message := "Cannot undo command: " ++ entry.command.intent,
                      timestamp := now }, s), [])
      else
        (DOut.ok ({ success := false,
                    message := "Cannot undo command: " ++ entry.command.intent,
                    timestamp := now }, s), [])
    else
      undo_scan handlers now s rest

/-- `CommandDispatcher.undo_last_command`: acquires `history_lock` for the
whole body (releasing it on every normal return), handles the empty history,
and otherwise scans newest-first.  The nested `dispatch_command` call runs
while the lock is held. -/
def undo_last_command (handlers : Handlers) (now : Time) (s : DState) :
    DOut (ExecutionResult × DState) × List DEvent :=
  if s.history_lock_held then (DOut.deadlock, [])
  else
    let s1 := { s with history_lock_held := true }
    let step :=
      if s1.command_history = [] then
        (DOut.ok ({ success := false,
                    message := "No commands to undo",
                    timestamp := now }, s1), ([] : List DEvent))
      else
        undo_scan handlers now s1 s1.command_history.reverse
    match step with
    | (DOut.ok (r, s2), evs) =>
      (DOut.ok (r, { s2 with history_lock_held := false }), evs)
    | (DOut.deadlock, evs) => (DOut.deadlock, evs)

end CommandDispatcher

namespace FallbackProcessor

/-- Oracle for `re.match(pattern, text, re.IGNORECASE)`: `Option.none` on no
match, otherwise `match.groups()` — the tuple of capture groups, an unmatched
optional group being `Option.none`.  The `re` module is the Python standard
library, external to this repository, so it enters the model as a parameter;
the repository's pattern strings below are embedded verbatim. -/
abbrev Matcher := String → String → Option (List (Option String))

/-- Oracle for the boolean outcome of `re.search(pattern, text)`. -/
abbrev Searcher := String → String → Bool

/-- `FallbackProcessor.intent_patterns`: the **ordered** per-intent pattern
sets (Python dict insertion order; list order within an intent). -/
def intent_patterns : List (String × List String) :=
  [ ("open_app",
      [ "(?:open|launch|start|run)\\s+(.+?)(?:\\s+(?:app|application|program))?$",
        "(?:start|run)\\s+(.+?)$",
        "open\\s+(.+?)\\s+app$" ]),
    ("close_app",
      [ "(?:close|quit|exit|stop)\\s+(.+?)(?:\\s+(?:app|application|program))?$",
        "(?:close|quit)\\s+(.+?)$",
        "shutdown\\s+(.+?)\\s+app$" ]),
    ("get_weather",
      [ "(?:what'?s?|tell me|show me)\\s+(?:the\\s+)?weather(?:\\s+(?:in|for|at)\\s+(.+))?$",
        "weather(?:\\s+(?:in|for|at)\\s+(.+))?$",
        "(?:how'?s?|what'?s? the) weather(?:\\s+(?:in|for|at)\\s+(.+))?$" ]),
    ("search_web",
      [ "(?:search|google|look up)\\s+(.+?)\\s*(?:on\\s+google)?$",
        "(?:find|find out|tell me about)\\s+(.+?)$",
        "(?:what\\s+is|who\\s+is|where\\s+is)\\s+(.+?)$" ]),
    ("search_youtube",
      [ "(?:search|play|find)\\s+(.+?)\\s+on\\s+youtube$",
        "youtube\\s+(.+?)$",
        "(?:play|watch)\\s+(.+?)\\s+on\\s+youtube$" ]),
    ("search_wikipedia",
      [ "(?:search|look up)\\s+(.+?)\\s+on\\s+wikipedia$",
        "wikipedia\\s+(.+?)$",
        "tell me about\\s+(.+?)$" ]),
    ("set_reminder",
      [ "(?:remind|reminder)\\s+(?:me\\s+)?(?:to\\s+)?(.+?)(?:\\s+in\\s+(\\d+)\\s+(minute|minutes|hour|hours))?$",
        "(?:set\\s+)?reminder\\s+(?:to\\s+)?(.+?)$",
        "remind\\s+me\\s+(.+?)$" ]),
    ("set_timer",
      [ "(?:set\\s+)?(?:a\\s+)?timer\\s+for\\s+(\\d+)\\s+(minute|minutes|hour|hours)$",
        "timer\\s+(\\d+)\\s+(minute|minutes|hour|hours)$",
        "(?:count|countdown)\\s+(.+?)$" ]),
    ("play_music",
      [ "(?:play|start)\\s+(.+?)(?:\\s+(?:music|song|track))?$",
        "(?:listen to|hear)\\s+(.+?)$",
        "music\\s+(.+?)$" ]),
    ("send_email",
      [ "(?:send|write)\\s+(?:an\\s+)?email\\s+(?:to\\s+)?(.+?)(?:\\s+saying\\s+(.+?))?$",
        "email\\s+(.+?)(?:\\s+saying\\s+(.+?))?$",
        "(?:message|contact)\\s+(.+?)$" ]),
    ("get_time",
      [ "(?:what\\s+)?time\\s+is\\s+it$",
        "(?:current\\s+)?time$",
        "(?:tell me the time|what time)$" ]),
    ("get_date",
      [ "(?:what\\s+)?(?:day|date)\\s+is\\s+it$",
        "(?:current\\s+)?(?:day|date)$",
        "(?:tell me the date|what date)$" ]),
    ("shutdown_system",
      [ "(?:shutdown|turn off|power off)\\s+(?:the\\s+)?(?:computer|pc|system)$",
        "(?:shut\\s+down|power\\s+down)$" ]),
    ("restart_system",
      [ "(?:restart|reboot|reboot)\\s+(?:the\\s+)?(?:computer|pc|system)$",
        "(?:restart\\s+computer|reboot\\s+system)$" ]),
    ("get_news",
      [ "(?:what'?s?\\s+(?:the\\s+)?latest\\s+)?news(?:\\s+(?:about|on)\\s+(.+?))?$",
        "(?:tell|show)\\s+(?:me\\s+)?(?:the\\s+)?news(?:\\s+(?:about|on)\\s+(.+?))?$",
        "(?:news|headlines)(?:\\s+(?:about|on)\\s+(.+?))?$" ]) ]

/-- `FallbackProcessor.sensitive_patterns`: the independent lexical denylist. -/
def sensitive_patterns : List String :=
  [ "\\b(password|secret|token|key|credential)\\b",
    "\\b(delete|remove|uninstall)\\s+.+\\b",
    "\\b(format|erase|wipe)\\s+.+\\b",
    "\\b(administrator|root|sudo)\\b" ]

/-- The fixed sensitive-intent set of `FallbackProcessor.process_command`. -/
def sensitive_intents : List String :=
  ["shutdown_system", "restart_system", "send_email"]

/-- First matching pattern within one intent's ordered pattern list. -/
def first_in_list (M : Matcher) (text : String) :
    List String → Option (List (Option String))
  | [] => Option.none
  | p :: ps =>
    match M p text with
    | some gs => some gs
    | Option.none => first_in_list M text ps

/-- First-match-wins walk over the ordered intent/pattern table (the nested
`for intent, patterns ... for pattern ...` loops). -/
def first_pattern_match (M : Matcher) (text : String) :
    List (String × List String) → Option (String × List (Option String))
  | [] => Option.none
  | (intent, pats) :: rest =>
    match first_in_list M text pats with
    | some gs => some (intent, gs)
    | Option.none => first_pattern_match M text rest

/-- Python truthiness of an optional capture group (`if groups[i]`): present
and a nonempty string. -/
def groupTruthy : Option String → Bool
  | some s => s ≠ ""
  | Option.none => false

/-- Positional entity extraction per intent from the match groups, mirroring
the `if match.groups():` block of `FallbackProcessor.process_command`.
Required groups are rendered with a defensive `""` default: with the
repository's patterns they are always present (Python would raise
otherwise).  `int(...)` on a `\\d+` group is `pyDigitsToNat`. -/
def extract_entities (intent : String) (groups : List (Option String)) :
    Entities :=
  if groups = [] then []
  else
    let g (i : Nat) : Option String := (groups.getD i Option.none)
    let gs (i : Nat) : String := pyStrip ((g i).getD "")
    if intent = "open_app" then [("app_name", EVal.str (gs 0))]
    else if intent = "close_app" then [("app_name", EVal.str (gs 0))]
    else if intent = "get_weather" ∨ intent = "search_web"
        ∨ intent = "search_youtube" ∨ intent = "search_wikipedia" then
      [("query", if groupTruthy (g 0) then EVal.str (gs 0) else EVal.null)]
    else if intent = "set_reminder" then
      if 2 < groups.length ∧ groupTruthy (groups.getD 1 Option.none) then
        [("message", EVal.str (gs 0)),
         ("time_value", EVal.int (pyDigitsToNat ((g 1).getD "") : Int)),
         ("time_unit", EVal.str ((g 2).getD ""))]
      else [("message", EVal.str (gs 0))]
    else if intent = "set_timer" then
      [("time_value", EVal.int (pyDigitsToNat ((g 0).getD "") : Int)),
       ("time_unit", EVal.str ((g 1).getD ""))]
    else if intent = "play_music" then
      [("song_or_playlist", EVal.str (gs 0))]
    else if intent = "send_email" then
      if 1 < groups.length ∧ groupTruthy (groups.getD 1 Option.none) then
        [("recipient", EVal.str (gs 0)), ("message", EVal.str (gs 1))]
      else [("recipient", EVal.str (gs 0))]
    else []

/-- `FallbackProcessor.process_command`: normalize, compute the lexical
sensitivity flag, take the first matching pattern (fixed confidence `0.7`,
confirmation forced by the denylist or the sensitive-intent set), and fall
back to the `general_query` command when nothing matches. -/
def process_command (M : Matcher) (S : Searcher) (now : Time)
    (text0 : String) : CommandResult :=
  let text := pyLower (pyStrip text0)
  let is_sensitive := sensitive_patterns.any (fun p => S p text)
  match first_pattern_match M text intent_patterns with
  | some (intent, groups) =>
    { intent := intent,
      entities := extract_entities intent groups,
      confidence := mkRat 7 10,
      requires_confirmation := is_sensitive || intent ∈ sensitive_intents,
      raw_text := text,
      processing_method := "fallback",
      timestamp := now }
  | Option.none =>
    { intent := "general_query",
      entities := [("query", EVal.str text)],
      confidence := mkRat 3 10,
      requires_confirmation := false,
      raw_text := text,
      processing_method := "fallback",
      timestamp := now }

end FallbackProcessor

namespace NLPProcessor

/-- The fields of `AIConfig` (from `config.py`) that the modelled paths read. -/
structure AIConfig where
  use_openai : Bool
  cache_responses : Bool
  cache_ttl_hours : ℚ
deriving DecidableEq

/-- `CachedResponse` from `nlp_processor.py`. -/
structure CachedResponse where
  key : String
  response : CommandResult
  created_at : Time
  ttl_hours : ℚ
deriving DecidableEq

/-- The in-memory response cache `self.cache`: a dict from key to entry. -/
abbrev Cache := List (String × CachedResponse)

/-- Dict membership + access (`cache_key in self.cache` / `self.cache[k]`). -/
def Cache.find (cache : Cache) (k : String) : Option CachedResponse :=
  cache.lookup k

/-- Dict assignment `self.cache[k] = v` (replace any previous binding). -/
def Cache.insert (cache : Cache) (k : String) (v : CachedResponse) : Cache :=
  (k, v) :: cache.filter (fun p => p.1 ≠ k)

/-- Dict deletion `del self.cache[k]`. -/
def Cache.erase (cache : Cache) (k : String) : Cache :=
  cache.filter (fun p => p.1 ≠ k)

/-- Oracle for `hashlib.md5(lowered_text.encode()).hexdigest()` (standard
library, external): an arbitrary deterministic key function. -/
abbrev KeyHash := String → String

/-- `NLPProcessor._get_cache_key`: a consistent key of the lowered text. -/
def get_cache_key (keyHash : KeyHash) (text : String) : String :=
  keyHash (pyLower text)

/-- `NLPProcessor._get_cached_response`: a hit strictly younger than its TTL
is returned as stored; an entry at or past its TTL is deleted and not
returned.  Returns the (possibly purged) cache alongside the lookup result. -/
def get_cached_response (cfg : AIConfig) (keyHash : KeyHash) (now : Time)
    (cache : Cache) (text : String) : Option CommandResult × Cache :=
  if ¬ cfg.cache_responses then (Option.none, cache)
  else
    let cache_key := get_cache_key keyHash text
    match Cache.find cache cache_key with
    | some cached =>
      if now - cached.created_at < cached.ttl_hours then
        (some cached.response, cache)
      else
        (Option.none, Cache.erase cache cache_key)
    | Option.none => (Option.none, cache)

/-- `NLPProcessor._cache_response`. -/
def cache_response (cfg : AIConfig) (keyHash : KeyHash) (now : Time)
    (cache : Cache) (text : String) (response : CommandResult) : Cache :=
  if ¬ cfg.cache_responses then cache
  else
    let cache_key := get_cache_key keyHash text
    Cache.insert cache cache_key
      ⟨cache_key, response, now, cfg.cache_ttl_hours⟩

/-- The JSON object parsed out of the remote completion reply, each field
optional exactly as `parsed.get(...)` reads it. -/
structure RemoteParsed where
  intent : Option String
  entities : Option Entities
  confidence : Option ℚ
  requires_confirmation : Option Bool
deriving DecidableEq

/-- Oracle for the OpenAI chat-completion call plus JSON extraction:
`Option.none` covers every failure the Python code absorbs (API/transport
error, unparseable content, bad field types) — all of which make
`_process_with_openai` return `None`. -/
abbrev Remote := String → Option RemoteParsed

/-- `NLPProcessor._process_with_openai`: consult the cache first (when
enabled), otherwise call the remote service, build the `CommandResult` with
the documented field defaults, and store it (when enabled).  The final `Nat`
counts remote calls issued by this invocation. -/
def process_with_openai (cfg : AIConfig) (keyHash : KeyHash) (remote : Remote)
    (now : Time) (cache : Cache) (text : String) :
    Option CommandResult × Cache × Nat :=
  let afterCache : Option CommandResult × Cache :=
    if cfg.cache_responses then get_cached_response cfg keyHash now cache text
    else (Option.none, cache)
  match afterCache with
  | (some cached, cache') => (some cached, cache', 0)
  | (Option.none, cache') =>
    match remote text with
    | Option.none => (Option.none, cache', 1)
    | some parsed =>
      let result : CommandResult :=
        { intent := parsed.intent.getD "unknown",
          entities := parsed.entities.getD [],
          confidence := parsed.confidence.getD (mkRat 1 2),
          requires_confirmation := parsed.requires_confirmation.getD false,
          raw_text := text,
          processing_method := "openai",
          timestamp := now }
      let cache'' :=
        if cfg.cache_responses then cache_response cfg keyHash now cache' text result
        else cache'
      (some result, cache'', 1)

/-- `NLPProcessor.process_command`: empty or whitespace input yields the
distinguished "error" command without consulting either path; otherwise the
remote path is tried (when enabled) and every failure of it degrades to the
deterministic fallback.  The model is a total function — the Python method
never lets an exception escape on these paths — and also returns the updated
cache and the number of remote calls issued. -/
def process_command (cfg : AIConfig) (keyHash : KeyHash) (remote : Remote)
    (M : FallbackProcessor.Matcher) (S : FallbackProcessor.Searcher)
    (now : Time) (cache : Cache) (text : String) :
    CommandResult × Cache × Nat :=
  if pyStrip text = "" then
    ({ intent := "error",
       entities := [("error", EVal.str "Empty command")],
       confidence := 0,
       requires_confirmation := false,
       raw_text := text,
       processing_method := "error",
       timestamp := now }, cache, 0)
  else
    let t := pyStrip text
    if cfg.use_openai then
      match process_with_openai cfg keyHash remote now cache t with
      | (some result, cache', n) => (result, cache', n)
      | (Option.none, cache', n) =>
        (FallbackProcessor.process_command M S now t, cache', n)
    else
      (FallbackProcessor.process_command M S now t, cache, 0)

end NLPProcessor

namespace EventLoop

/-- A `queue.Queue(maxsize)` holding items in FIFO order; `maxsize = 0` means
unbounded, as in Python. -/
structure BoundedQueue (α : Type) where
  maxsize : Nat
  items : List α
deriving DecidableEq

/-- `queue.Queue.put(item, timeout=1)` with no consumer freeing a slot during
the wait: on a full queue the bounded wait elapses and `queue.Full` is
raised (modelled as `Except.error ()`); otherwise the item is appended. -/
def BoundedQueue.put {α : Type} (q : BoundedQueue α) (a : α) :
    Except Unit (BoundedQueue α) :=
  if 0 < q.maxsize ∧ q.maxsize ≤ q.items.length then Except.error ()
  else Except.ok { q with items := q.items ++ [a] }

/-- An enqueued work item: the `CommandQueue` wrapper of `event_loop.py`, its
single-slot inner queue modelled by the text it carries. -/
structure QueueItem where
  text : String
  timestamp : Time
  source : String
deriving DecidableEq

/-- The enqueue step of `EventLoop._wake_word_detection_loop` after a command
has been recognized: wrap it with source `"wake_word"`, try a bounded `put`,
and on `queue.Full` drop the item and speak the busy feedback instead of
blocking.  Returns the updated queue and the phrases spoken. -/
def wake_word_enqueue (q : BoundedQueue QueueItem) (now : Time)
    (full_command : String) : BoundedQueue QueueItem × List String :=
  match q.put ⟨full_command, now, "wake_word"⟩ with
  | Except.ok q' => (q', [])
  | Except.error _ => (q, ["I'm busy right now, please try again"])

/-- The enqueue step of `EventLoop._handle_hotkey_activation`, identical but
tagged with source `"hotkey"`. -/
def hotkey_enqueue (q : BoundedQueue QueueItem) (now : Time)
    (command : String) : BoundedQueue QueueItem × List String :=
  match q.put ⟨command, now, "hotkey"⟩ with
  | Except.ok q' => (q', [])
  | Except.error _ => (q, ["I'm busy right now, please try again"])

/-- The shared queue as constructed in `EventLoop.__init__`:
`queue.Queue(maxsize=100)`. -/
def initial_command_queue : BoundedQueue QueueItem :=
  { maxsize := 100, items := [] }

end EventLoop

/-! Concrete sample data, used to instantiate the theorems below on closed
inputs. -/

/-- A successful handler result. -/
def sample_ok_result : ExecutionResult := { success := true, message := "ok" }

/-- A registry with handlers for a few intents (everything else absent). -/
def sample_handlers : CommandDispatcher.Handlers := fun i =>
  if i = "close_app" ∨ i = "shutdown_system" ∨ i = "get_time" then
    some (fun _ => sample_ok_result)
  else Option.none

/-- The dispatcher state as constructed by `CommandDispatcher.__init__`. -/
def initial_dstate : CommandDispatcher.DState :=
  { command_history := [], max_history_size := 100, commands_executed := 0,
    commands_failed := 0, last_command_time := Option.none,
    history_lock_held := false }

/-- A fallback-resolved `shutdown_system` command (confirmation flagged). -/
def shutdown_cmd : CommandResult :=
  { intent := "shutdown_system", entities := [], confidence := mkRat 7 10,
    requires_confirmation := true, raw_text := "shutdown the computer",
    processing_method := "fallback", timestamp := 0 }

/-- The same system command without the confirmation flag. -/
def unconfirmed_shutdown_cmd : CommandResult :=
  { shutdown_cmd with requires_confirmation := false }

/-- A successfully executed `open_app(app_name="Chrome")` command. -/
def open_chrome_cmd : CommandResult :=
  { intent := "open_app", entities := [("app_name", EVal.str "Chrome")],
    confidence := mkRat 7 10, requires_confirmation := false,
    raw_text := "open chrome", processing_method := "fallback", timestamp := 0 }

/-- The inverse command `undo_last_command` synthesizes for
`open_chrome_cmd` at time `1`. -/
def close_chrome_cmd : CommandResult :=
  { intent := "close_app", entities := [("app_name", EVal.str "Chrome")],
    confidence := mkRat 7 10, requires_confirmation := false,
    raw_text := "Close Chrome", processing_method := "fallback", timestamp := 1 }

/-- A successfully executed non-reversible (`get_weather`) command. -/
def weather_cmd : CommandResult :=
  { intent := "get_weather", entities := [], confidence := mkRat 7 10,
    requires_confirmation := false, raw_text := "weather",
    processing_method := "fallback", timestamp := 0 }

/-- State whose history holds one successful `open_chrome_cmd` dispatch. -/
def chrome_history_state : CommandDispatcher.DState :=
  { initial_dstate with command_history := [⟨open_chrome_cmd, sample_ok_result, 0⟩] }

/-- State whose history holds one successful `weather_cmd` dispatch. -/
def weather_history_state : CommandDispatcher.DState :=
  { initial_dstate with command_history := [⟨weather_cmd, sample_ok_result, 0⟩] }

/-- An `AIConfig` with the remote path and caching enabled, TTL one hour. -/
def sample_ai_config : NLPProcessor.AIConfig :=
  { use_openai := true, cache_responses := true, cache_ttl_hours := 1 }

/-- An `AIConfig` with the remote path disabled (fallback only). -/
def offline_ai_config : NLPProcessor.AIConfig :=
  { use_openai := false, cache_responses := true, cache_ttl_hours := 1 }

/-- The identity key function, a concrete instance of the md5 oracle. -/
def id_key_hash : NLPProcessor.KeyHash := fun s => s

/-- A remote service that always returns one fixed well-formed reply. -/
def sample_remote : NLPProcessor.Remote := fun _ =>
  some { intent := some "get_time", entities := some [],
         confidence := some (mkRat 9 10), requires_confirmation := some false }

/-- A remote service that always fails. -/
def failing_remote : NLPProcessor.Remote := fun _ => Option.none

/-- A matcher on which no pattern matches. -/
def no_match_matcher : FallbackProcessor.Matcher := fun _ _ => Option.none

/-- A matcher on which every pattern matches with one group `"chrome"`
(so the first table entry, `open_app`, wins). -/
def chrome_matcher : FallbackProcessor.Matcher := fun _ _ => some [some "chrome"]

/-- A searcher on which no denylist pattern fires. -/
def benign_searcher : FallbackProcessor.Searcher := fun _ _ => false

/-- The first resolution of the C3 scenario: remote path, cold cache. -/
def first_resolution : CommandResult × NLPProcessor.Cache × Nat :=
  NLPProcessor.process_command sample_ai_config id_key_hash sample_remote
    no_match_matcher benign_searcher 0 [] "What time is it"

/-- The second resolution of the same utterance against the first run's
cache, within the TTL. -/
def second_resolution : CommandResult × NLPProcessor.Cache × Nat :=
  NLPProcessor.process_command sample_ai_config id_key_hash sample_remote
    no_match_matcher benign_searcher 0 first_resolution.2.1 "What time is it"

/-- A cache holding one entry (key `"abc"`, created at `0`, TTL one hour)
that is two hours old by lookup time. -/
def expired_sample_cache : NLPProcessor.Cache :=
  [("abc", ⟨"abc", shutdown_cmd, 0, 1⟩)]

/-- A full shared queue: 100 items in a capacity-100 queue. -/
def full_sample_queue : EventLoop.BoundedQueue EventLoop.QueueItem :=
  { maxsize := 100, items := List.replicate 100 ⟨"x", 0, "hotkey"⟩ }

namespace CommandDispatcher

/-- A dispatch whose command fails validation returns the validator's reason
immediately, touching neither the registry nor the state. -/
theorem dispatch_command_validation_fail (handlers : Handlers) (now : Time)
    (c : CommandResult) (s : DState) (err : Option String)
    (h : CommandValidator.validate_command c = (false, err)) :
    dispatch_command handlers now c s =
      (DOut.ok ({ success := false,
                  message := "Command validation failed: " ++ err.getD "",
                  error := err,
                  execution_time := 0,
                  timestamp := now }, s), [DEvent.dispatchCalled c]) := by
  unfold dispatch_command
  rw [h]

/-- A validated command with a registered handler and the confirmation flag
set is stopped at the confirmation gate: distinguished result, unchanged
state, no handler event. -/
theorem dispatch_command_confirmation_gate (handlers : Handlers) (now : Time)
    (c : CommandResult) (s : DState) (f : CommandResult → ExecutionResult)
    (e : Option String)
    (hv : CommandValidator.validate_command c = (true, e))
    (hh : handlers c.intent = some f)
    (hc : c.requires_confirmation = true) :
    dispatch_command handlers now c s =
      (DOut.ok ({ success := false,
                  message := "Command '" ++ c.intent
                    ++ "' requires confirmation. Please confirm to proceed.",
                  data := some [("requires_confirmation", EVal.bool true)],
                  error := some "Confirmation required",
                  execution_time := 0,
                  timestamp := now }, s), [DEvent.dispatchCalled c]) := by
  unfold dispatch_command
  rw [hv, hh, hc]
  rfl

/-- A validated, unconfirmed command with a handler, dispatched while the
history lock is already held, reaches `_record_command` and deadlocks there,
after the handler has been invoked. -/
theorem dispatch_command_locked_deadlock (handlers : Handlers) (now : Time)
    (c : CommandResult) (s : DState) (f : CommandResult → ExecutionResult)
    (e : Option String)
    (hv : CommandValidator.validate_command c = (true, e))
    (hh : handlers c.intent = some f)
    (hc : c.requires_confirmation = false)
    (hlock : s.history_lock_held = true) :
    dispatch_command handlers now c s =
      (DOut.deadlock, [DEvent.dispatchCalled c, DEvent.handlerInvoked c.intent]) := by
  unfold dispatch_command record_command
  rw [hv, hh, hc, hlock]
  rfl

/-- Every dispatch emits its entry event, whatever path it takes. -/
theorem dispatchCalled_mem_dispatch_events (handlers : Handlers) (now : Time)
    (c : CommandResult) (s : DState) :
    DEvent.dispatchCalled c ∈ (dispatch_command handlers now c s).2 := by
  unfold dispatch_command
  rcases hval : CommandValidator.validate_command c with ⟨ok, err⟩
  cases ok
  · simp
  · rcases hh : handlers c.intent with _ | f
    · simp
    · by_cases hc : c.requires_confirmation = true
      · simp [hc]
      · rw [Bool.not_eq_true] at hc
        rw [hc]
        rcases hrec : record_command c (execute_with_timeout f c) now s with s1 | _ <;> simp [hrec]

/-- The scan of `undo_last_command` passes over unsuccessful entries without
effect. -/
theorem undo_scan_append_failures (handlers : Handlers) (now : Time) (s : DState)
    (l rest : List CommandHistory)
    (h : ∀ x ∈ l, x.result.success = false) :
    undo_scan handlers now s (l ++ rest) = undo_scan handlers now s rest := by
  induction l with
  | nil => rfl
  | cons a as ih =>
    have ha := h a (List.mem_cons_self a as)
    have step : undo_scan handlers now s (a :: (as ++ rest)) =
        undo_scan handlers now s (as ++ rest) := by
      conv_lhs => unfold undo_scan
      rw [ha]
      simp
    rw [List.cons_append, step]
    exact ih (fun x hx => h x (List.mem_cons_of_mem a hx))

/-- Commands synthesized by `_create_undo_command` never carry the
confirmation flag. -/
theorem create_undo_command_not_confirm (now : Time) (oc uc : CommandResult)
    (h : create_undo_command now oc = some uc) :
    uc.requires_confirmation = false := by
  unfold create_undo_command at h
  split at h
  · cases h; rfl
  · split at h
    · cases h; rfl
    · split at h
      · cases h; rfl
      · exact Option.noConfusion h

end CommandDispatcher

namespace NLPProcessor

/-- Dict lookup after dict insert at the same key. -/
theorem cache_find_insert_self (cache : Cache) (k : String) (v : CachedResponse) :
    Cache.find (Cache.insert cache k v) k = some v := by
  simp [Cache.find, Cache.insert, List.lookup]

/-- Dict lookup after dict deletion at the same key. -/
theorem cache_find_erase_self (cache : Cache) (k : String) :
    Cache.find (Cache.erase cache k) k = Option.none := by
  induction cache with
  | nil => rfl
  | cons p rest ih =>
    by_cases hp : p.1 = k
    · simpa [Cache.erase, List.filter_cons, hp] using ih
    · have hk : (k == p.1) = false := by
        simp [Ne.symm hp]
      simpa [Cache.erase, Cache.find, List.filter_cons, List.lookup, hp, hk]
        using ih

end NLPProcessor

namespace FallbackProcessor

/-- If no pattern of a list matches, the scan over it finds nothing. -/
theorem first_in_list_none (M : Matcher) (text : String) (l : List String)
    (h : ∀ p ∈ l, M p text = Option.none) :
    first_in_list M text l = Option.none := by
  induction l with
  | nil => rfl
  | cons p ps ih =>
    unfold first_in_list
    rw [h p (List.mem_cons_self p ps)]
    exact ih (fun q hq => h q (List.mem_cons_of_mem p hq))

/-- If no pattern of the whole table matches, the first-match walk finds
nothing. -/
theorem first_pattern_match_none (M : Matcher) (text : String)
    (tbl : List (String × List String))
    (h : ∀ intent pats p, (intent, pats) ∈ tbl → p ∈ pats → M p text = Option.none) :
    first_pattern_match M text tbl = Option.none := by
  induction tbl with
  | nil => rfl
  | cons ip rest ih =>
    unfold first_pattern_match
    rw [first_in_list_none M text ip.2
      (fun p hp => h ip.1 ip.2 p (by rw [← Prod.mk.eta (p := ip)]; exact List.mem_cons_self ip rest) hp)]
    exact ih (fun i ps p hm hp => h i ps p (List.mem_cons_of_mem ip hm) hp)

end FallbackProcessor

end Jarvis

namespace Jarvis

open CommandDispatcher NLPProcessor FallbackProcessor EventLoop

/-- C1: a Command with `requiresConfirmation = true` that passes validation
and has a registered handler is answered by `dispatch_command` with the
distinguished confirmation-needed `ExecutionResult` (`success = false`,
`error = "Confirmation required"`, `data.requires_confirmation = true`),
the state is untouched, and the registered handler is never invoked. -/
theorem confirmation_gate_blocks_handler (handlers : Handlers) (now : Time)
    (c : CommandResult) (s : DState) (f : CommandResult → ExecutionResult)
    (e : Option String)
    (hv : CommandValidator.validate_command c = (true, e))
    (hh : handlers c.intent = some f)
    (hc : c.requires_confirmation = true) :
    dispatch_command handlers now c s =
      (DOut.ok ({ success := false,
                  message := "Command '" ++ c.intent
                    ++ "' requires confirmation. Please confirm to proceed.",
                  data := some [("requires_confirmation", EVal.bool true)],
                  error := some "Confirmation required",
                  execution_time := 0,
                  timestamp := now }, s), [DEvent.dispatchCalled c]) ∧
    DEvent.handlerInvoked c.intent ∉ (dispatch_command handlers now c s).2 := by
  have h1 := dispatch_command_confirmation_gate handlers now c s f e hv hh hc
  refine ⟨h1, ?_⟩
  rw [h1]
  simp

/-- Witness for C1: the confirmation-flagged `shutdown_cmd` against the
sample registry. -/
theorem confirmation_gate_blocks_handler_witness :
    dispatch_command sample_handlers 0 shutdown_cmd initial_dstate =
      (DOut.ok ({ success := false,
                  message := "Command '" ++ shutdown_cmd.intent
                    ++ "' requires confirmation. Please confirm to proceed.",
                  data := some [("requires_confirmation", EVal.bool true)],
                  error := some "Confirmation required",
                  execution_time := 0,
                  timestamp := 0 }, initial_dstate),
       [DEvent.dispatchCalled shutdown_cmd]) ∧
    DEvent.handlerInvoked shutdown_cmd.intent
      ∉ (dispatch_command sample_handlers 0 shutdown_cmd initial_dstate).2 :=
  confirmation_gate_blocks_handler sample_handlers 0 shutdown_cmd initial_dstate
    (fun _ => sample_ok_result) Option.none (by decide) rfl rfl

/-- C2: for a `shutdown_system` or `restart_system` Command whose
`requiresConfirmation` is `false`, `validate_command` returns `false` with a
reason; the validator is a pure function into a verdict pair and never
produces a modified command, so it cannot set or upgrade the flag. -/
theorem system_commands_require_preset_confirmation (c : CommandResult)
    (hi : c.intent = "shutdown_system" ∨ c.intent = "restart_system")
    (hc : c.requires_confirmation = false) :
    (CommandValidator.validate_command c).1 = false ∧
      ((CommandValidator.validate_command c).2).isSome = true := by
  unfold CommandValidator.validate_command
  by_cases hconf : c.confidence < mkRat 3 10
  · simp [hconf]
  · rcases hi with hi | hi <;>
      simp [hconf, hi, CommandValidator.validate_system_command, hc]

/-- Witness for C2: `shutdown_cmd` with the flag cleared fails validation. -/
theorem system_commands_require_preset_confirmation_witness :
    (CommandValidator.validate_command unconfirmed_shutdown_cmd).1 = false ∧
      ((CommandValidator.validate_command unconfirmed_shutdown_cmd).2).isSome = true :=
  system_commands_require_preset_confirmation unconfirmed_shutdown_cmd (Or.inl rfl) rfl

/-- C5 counterexample: the confirmation-gated dispatch the claim itself cites
("Confirmation required") returns a failed result with the state — and hence
the History — completely unchanged: the empty history stays empty, so the
(Command, ExecutionResult) pair is *not* recorded as a failed dispatch. -/
theorem rejected_dispatch_not_recorded_cex :
    dispatch_command sample_handlers 0 shutdown_cmd initial_dstate =
      (DOut.ok ({ success := false,
                  message := "Command 'shutdown_system' requires confirmation. Please confirm to proceed.",
                  data := some [("requires_confirmation", EVal.bool true)],
                  error := some "Confirmation required",
                  execution_time := 0,
                  timestamp := 0 }, initial_dstate),
       [DEvent.dispatchCalled shutdown_cmd]) ∧
    initial_dstate.command_history = [] := by
  decide

/-- C5 amended: a Command that fails validation or is stopped at the
confirmation gate yields a failed `ExecutionResult`, but the pair is NOT
recorded in History — the dispatcher state comes back unchanged;
`_record_command` only runs after handler execution. -/
theorem rejected_dispatch_fails_without_recording (handlers : Handlers)
    (now : Time) (c : CommandResult) (s : DState) :
    (∀ err, CommandValidator.validate_command c = (false, err) →
      dispatch_command handlers now c s =
        (DOut.ok ({ success := false,
                    message := "Command validation failed: " ++ err.getD "",
                    error := err,
                    execution_time := 0,
                    timestamp := now }, s), [DEvent.dispatchCalled c]))
    ∧ (∀ f e, CommandValidator.validate_command c = (true, e) →
        handlers c.intent = some f → c.requires_confirmation = true →
        dispatch_command handlers now c s =
          (DOut.ok ({ success := false,
                      message := "Command '" ++ c.intent
                        ++ "' requires confirmation. Please confirm to proceed.",
                      data := some [("requires_confirmation", EVal.bool true)],
                      error := some "Confirmation required",
                      execution_time := 0,
                      timestamp := now }, s), [DEvent.dispatchCalled c])) :=
  ⟨fun err h => dispatch_command_validation_fail handlers now c s err h,
   fun f e hv hh hc => dispatch_command_confirmation_gate handlers now c s f e hv hh hc⟩

/-- Witness for the amended C5: a system command without confirmation fails
validation and the state passed in is returned untouched. -/
theorem rejected_dispatch_fails_without_recording_witness :
    dispatch_command sample_handlers 0 unconfirmed_shutdown_cmd initial_dstate =
      (DOut.ok ({ success := false,
                  message := "Command validation failed: "
                    ++ (some "System commands require confirmation").getD "",
                  error := some "System commands require confirmation",
                  execution_time := 0,
                  timestamp := 0 }, initial_dstate),
       [DEvent.dispatchCalled unconfirmed_shutdown_cmd]) :=
  (rejected_dispatch_fails_without_recording sample_handlers 0
      unconfirmed_shutdown_cmd initial_dstate).1
    (some "System commands require confirmation") (by decide)

/-- C10: a producer (wake-word or hotkey) attempting to enqueue into the
shared queue while it already holds 100 items has the item rejected: the
queue is unchanged, the busy feedback is spoken, and the enqueue step
returns instead of blocking. -/
theorem full_queue_enqueue_rejected (q : BoundedQueue QueueItem) (now : Time)
    (cmd : String) (hmax : q.maxsize = 100) (hfull : q.items.length = 100) :
    wake_word_enqueue q now cmd = (q, ["I'm busy right now, please try again"]) ∧
    hotkey_enqueue q now cmd = (q, ["I'm busy right now, please try again"]) := by
  have hput : ∀ it : QueueItem, q.put it = Except.error () := by
    intro it
    unfold BoundedQueue.put
    rw [hmax, hfull]
    simp
  refine ⟨?_, ?_⟩
  · unfold wake_word_enqueue
    rw [hput ⟨cmd, now, "wake_word"⟩]
  · unfold hotkey_enqueue
    rw [hput ⟨cmd, now, "hotkey"⟩]

/-- Witness for C10: a concrete 100-item queue rejects the 101st item in
both producers. -/
theorem full_queue_enqueue_rejected_witness :
    wake_word_enqueue full_sample_queue 0 "hello" =
      (full_sample_queue, ["I'm busy right now, please try again"]) ∧
    hotkey_enqueue full_sample_queue 0 "hello" =
      (full_sample_queue, ["I'm busy right now, please try again"]) :=
  full_queue_enqueue_rejected full_sample_queue 0 "hello" rfl (by decide)


/-- C9: a cache entry whose age exceeds its TTL is never returned by a
lookup, and that same lookup eagerly removes the entry from the cache.
(The `cache_responses = true` hypothesis matches the only call site of
`_get_cached_response`, which is guarded by that flag; with caching disabled
the function returns `None` without touching the cache.) -/
theorem expired_cache_entry_never_returned_and_purged
    (cfg : AIConfig) (keyHash : KeyHash) (now : Time) (cache : Cache)
    (text : String) (cr : CachedResponse)
    (hc : cfg.cache_responses = true)
    (hfind : Cache.find cache (get_cache_key keyHash text) = some cr)
    (hexp : cr.ttl_hours < now - cr.created_at) :
    get_cached_response cfg keyHash now cache text =
      (Option.none, Cache.erase cache (get_cache_key keyHash text)) ∧
    Cache.find (Cache.erase cache (get_cache_key keyHash text))
        (get_cache_key keyHash text) = Option.none := by
  have hlt : ¬ (now - cr.created_at < cr.ttl_hours) := not_lt_of_gt hexp
  refine ⟨?_, cache_find_erase_self cache _⟩
  unfold get_cached_response
  rw [hc]
  simp [hfind, hlt]

/-- Witness for C9: a two-hour-old entry with a one-hour TTL is not
returned and is purged. -/
theorem expired_cache_entry_never_returned_and_purged_witness :
    get_cached_response sample_ai_config id_key_hash 2 expired_sample_cache "ABC" =
      (Option.none, Cache.erase expired_sample_cache (get_cache_key id_key_hash "ABC")) ∧
    Cache.find (Cache.erase expired_sample_cache (get_cache_key id_key_hash "ABC"))
        (get_cache_key id_key_hash "ABC") = Option.none :=
  expired_cache_entry_never_returned_and_purged sample_ai_config id_key_hash 2
    expired_sample_cache "ABC" ⟨"abc", shutdown_cmd, 0, 1⟩ rfl (by decide) (by norm_num)

/-- C3 counterexample: in the concrete remote-path round trip
(`first_resolution` then `second_resolution`, same utterance, within the
TTL, caching enabled), the second resolution returns the Command of the
first and makes no second remote call — but that Command is tagged
`processing_method = "openai"`, not `"cache"`: the code returns the cached
`CommandResult` unchanged and no `"cache"` tag exists in
`nlp_processor.py`. -/
theorem cache_hit_not_retagged_cex :
    second_resolution.1 = first_resolution.1 ∧
    second_resolution.2.2 = 0 ∧
    second_resolution.1.processing_method = "openai" ∧
    second_resolution.1.processing_method ≠ "cache" := by
  simp only [first_resolution, second_resolution, NLPProcessor.process_command,
    process_with_openai, get_cached_response, get_cache_key, cache_response,
    Cache.find, Cache.insert, Cache.erase, Rat.sub_def']
  decide

/-- C8: whenever any fallback pattern matches an utterance, the resulting
Command carries the matched intent with fixed confidence `0.7`, and its
`requires_confirmation` is exactly (lexical denylist hit on the lowered
text) OR (matched intent in the fixed sensitive-intent set) — in particular
it is `true` whenever either holds, regardless of which pattern matched. -/
theorem fallback_match_fixed_confidence_and_forced_confirmation
    (M : Matcher) (S : Searcher) (now : Time) (text0 : String)
    (intent : String) (groups : List (Option String))
    (hm : first_pattern_match M (pyLower (pyStrip text0)) intent_patterns =
      some (intent, groups)) :
    (FallbackProcessor.process_command M S now text0).intent = intent ∧
    (FallbackProcessor.process_command M S now text0).confidence = mkRat 7 10 ∧
    (FallbackProcessor.process_command M S now text0).requires_confirmation =
      (sensitive_patterns.any (fun p => S p (pyLower (pyStrip text0))) ||
        decide (intent ∈ sensitive_intents)) := by
  unfold FallbackProcessor.process_command
  dsimp only
  rw [hm]
  exact ⟨rfl, rfl, rfl⟩

/-- Witness for C8: a matcher on which the first `open_app` pattern wins
for "Open Chrome". -/
theorem fallback_match_fixed_confidence_and_forced_confirmation_witness :
    (FallbackProcessor.process_command chrome_matcher benign_searcher 0 "Open Chrome").intent = "open_app" ∧
    (FallbackProcessor.process_command chrome_matcher benign_searcher 0 "Open Chrome").confidence = mkRat 7 10 ∧
    (FallbackProcessor.process_command chrome_matcher benign_searcher 0 "Open Chrome").requires_confirmation =
      (sensitive_patterns.any (fun p => benign_searcher p (pyLower (pyStrip "Open Chrome"))) ||
        decide ("open_app" ∈ sensitive_intents)) :=
  fallback_match_fixed_confidence_and_forced_confirmation chrome_matcher benign_searcher 0
    "Open Chrome" "open_app" [some "chrome"] (by decide)


/-- C3 amended: an utterance resolved twice through the remote path within
the cache TTL (caching enabled, first resolution a cache miss answered by
the remote service) yields on the second resolution a Command equal to the
first and makes no second remote call; the returned Command, however, still
carries `processing_method = "openai"` — the cache hit is not re-tagged
`"cache"`. -/
theorem cache_hit_returns_first_result_no_remote_call
    (cfg : AIConfig) (keyHash : KeyHash) (remote : Remote)
    (M : Matcher) (S : Searcher) (cache0 : Cache) (text : String)
    (p : RemoteParsed) (t1 t2 : Time)
    (huse : cfg.use_openai = true) (hcache : cfg.cache_responses = true)
    (hne : ¬ pyStrip text = "")
    (hmiss : Cache.find cache0 (get_cache_key keyHash (pyStrip text)) = Option.none)
    (hrem : remote (pyStrip text) = some p)
    (httl : t2 - t1 < cfg.cache_ttl_hours) :
    (NLPProcessor.process_command cfg keyHash remote M S t2
        (NLPProcessor.process_command cfg keyHash remote M S t1 cache0 text).2.1 text).1 =
      (NLPProcessor.process_command cfg keyHash remote M S t1 cache0 text).1 ∧
    (NLPProcessor.process_command cfg keyHash remote M S t1 cache0 text).1.processing_method
      = "openai" ∧
    (NLPProcessor.process_command cfg keyHash remote M S t2
        (NLPProcessor.process_command cfg keyHash remote M S t1 cache0 text).2.1 text).2.2 = 0 := by
  have hget0 : get_cached_response cfg keyHash t1 cache0 (pyStrip text) =
      (Option.none, cache0) := by
    unfold get_cached_response
    rw [hcache]
    simp [hmiss]
  have hpo1 : process_with_openai cfg keyHash remote t1 cache0 (pyStrip text) =
      (some { intent := p.intent.getD "unknown",
              entities := p.entities.getD [],
              confidence := p.confidence.getD (mkRat 1 2),
              requires_confirmation := p.requires_confirmation.getD false,
              raw_text := pyStrip text,
              processing_method := "openai",
              timestamp := t1 },
        Cache.insert cache0 (get_cache_key keyHash (pyStrip text))
          ⟨get_cache_key keyHash (pyStrip text),
           { intent := p.intent.getD "unknown",
             entities := p.entities.getD [],
             confidence := p.confidence.getD (mkRat 1 2),
             requires_confirmation := p.requires_confirmation.getD false,
             raw_text := pyStrip text,
             processing_method := "openai",
             timestamp := t1 }, t1, cfg.cache_ttl_hours⟩, 1) := by
    unfold process_with_openai
    rw [hcache]
    simp only [if_true, hget0, hrem, cache_response, hcache]
    simp
  have h1 : NLPProcessor.process_command cfg keyHash remote M S t1 cache0 text =
      ({ intent := p.intent.getD "unknown",
         entities := p.entities.getD [],
         confidence := p.confidence.getD (mkRat 1 2),
         requires_confirmation := p.requires_confirmation.getD false,
         raw_text := pyStrip text,
         processing_method := "openai",
         timestamp := t1 },
       Cache.insert cache0 (get_cache_key keyHash (pyStrip text))
         ⟨get_cache_key keyHash (pyStrip text),
          { intent := p.intent.getD "unknown",
            entities := p.entities.getD [],
            confidence := p.confidence.getD (mkRat 1 2),
            requires_confirmation := p.requires_confirmation.getD false,
            raw_text := pyStrip text,
            processing_method := "openai",
            timestamp := t1 }, t1, cfg.cache_ttl_hours⟩, 1) := by
    unfold NLPProcessor.process_command
    rw [if_neg hne, huse]
    simp only [if_true, hpo1]
  have hget1 : get_cached_response cfg keyHash t2
      (Cache.insert cache0 (get_cache_key keyHash (pyStrip text))
        ⟨get_cache_key keyHash (pyStrip text),
         { intent := p.intent.getD "unknown",
           entities := p.entities.getD [],
           confidence := p.confidence.getD (mkRat 1 2),
           requires_confirmation := p.requires_confirmation.getD false,
           raw_text := pyStrip text,
           processing_method := "openai",
           timestamp := t1 }, t1, cfg.cache_ttl_hours⟩)
      (pyStrip text) =
      (some { intent := p.intent.getD "unknown",
              entities := p.entities.getD [],
              confidence := p.confidence.getD (mkRat 1 2),
              requires_confirmation := p.requires_confirmation.getD false,
              raw_text := pyStrip text,
              processing_method := "openai",
              timestamp := t1 },
        Cache.insert cache0 (get_cache_key keyHash (pyStrip text))
          ⟨get_cache_key keyHash (pyStrip text),
           { intent := p.intent.getD "unknown",
             entities := p.entities.getD [],
             confidence := p.confidence.getD (mkRat 1 2),
             requires_confirmation := p.requires_confirmation.getD false,
             raw_text := pyStrip text,
             processing_method := "openai",
             timestamp := t1 }, t1, cfg.cache_ttl_hours⟩) := by
    unfold get_cached_response
    rw [hcache]
    dsimp only
    rw [cache_find_insert_self]
    simp [httl]
  have h2 : NLPProcessor.process_command cfg keyHash remote M S t2
      (Cache.insert cache0 (get_cache_key keyHash (pyStrip text))
        ⟨get_cache_key keyHash (pyStrip text),
         { intent := p.intent.getD "unknown",
           entities := p.entities.getD [],
           confidence := p.confidence.getD (mkRat 1 2),
           requires_confirmation := p.requires_confirmation.getD false,
           raw_text := pyStrip text,
           processing_method := "openai",
           timestamp := t1 }, t1, cfg.cache_ttl_hours⟩) text =
      ({ intent := p.intent.getD "unknown",
         entities := p.entities.getD [],
         confidence := p.confidence.getD (mkRat 1 2),
         requires_confirmation := p.requires_confirmation.getD false,
         raw_text := pyStrip text,
         processing_method := "openai",
         timestamp := t1 },
       Cache.insert cache0 (get_cache_key keyHash (pyStrip text))
         ⟨get_cache_key keyHash (pyStrip text),
          { intent := p.intent.getD "unknown",
            entities := p.entities.getD [],
            confidence := p.confidence.getD (mkRat 1 2),
            requires_confirmation := p.requires_confirmation.getD false,
            raw_text := pyStrip text,
            processing_method := "openai",
            timestamp := t1 }, t1, cfg.cache_ttl_hours⟩, 0) := by
    unfold NLPProcessor.process_command
    rw [if_neg hne, huse]
    have hpo2 : process_with_openai cfg keyHash remote t2
        (Cache.insert cache0 (get_cache_key keyHash (pyStrip text))
          ⟨get_cache_key keyHash (pyStrip text),
           { intent := p.intent.getD "unknown",
             entities := p.entities.getD [],
             confidence := p.confidence.getD (mkRat 1 2),
             requires_confirmation := p.requires_confirmation.getD false,
             raw_text := pyStrip text,
             processing_method := "openai",
             timestamp := t1 }, t1, cfg.cache_ttl_hours⟩) (pyStrip text) =
        (some { intent := p.intent.getD "unknown",
                entities := p.entities.getD [],
                confidence := p.confidence.getD (mkRat 1 2),
                requires_confirmation := p.requires_confirmation.getD false,
                raw_text := pyStrip text,
                processing_method := "openai",
                timestamp := t1 },
          Cache.insert cache0 (get_cache_key keyHash (pyStrip text))
            ⟨get_cache_key keyHash (pyStrip text),
             { intent := p.intent.getD "unknown",
               entities := p.entities.getD [],
               confidence := p.confidence.getD (mkRat 1 2),
               requires_confirmation := p.requires_confirmation.getD false,
               raw_text := pyStrip text,
               processing_method := "openai",
               timestamp := t1 }, t1, cfg.cache_ttl_hours⟩, 0) := by
      unfold process_with_openai
      rw [hcache]
      simp only [if_true, hget1]
    simp only [if_true, hpo2]
  rw [h1]
  dsimp only
  rw [h2]
  exact ⟨rfl, rfl, rfl⟩


/-- Witness for the amended C3: the concrete round trip of
`first_resolution` / `second_resolution`, both at time `0`. -/
theorem cache_hit_returns_first_result_no_remote_call_witness :
    (NLPProcessor.process_command sample_ai_config id_key_hash sample_remote
        no_match_matcher benign_searcher 0
        (NLPProcessor.process_command sample_ai_config id_key_hash sample_remote
          no_match_matcher benign_searcher 0 [] "What time is it").2.1 "What time is it").1 =
      (NLPProcessor.process_command sample_ai_config id_key_hash sample_remote
        no_match_matcher benign_searcher 0 [] "What time is it").1 ∧
    (NLPProcessor.process_command sample_ai_config id_key_hash sample_remote
        no_match_matcher benign_searcher 0 [] "What time is it").1.processing_method = "openai" ∧
    (NLPProcessor.process_command sample_ai_config id_key_hash sample_remote
        no_match_matcher benign_searcher 0
        (NLPProcessor.process_command sample_ai_config id_key_hash sample_remote
          no_match_matcher benign_searcher 0 [] "What time is it").2.1 "What time is it").2.2 = 0 :=
  cache_hit_returns_first_result_no_remote_call sample_ai_config id_key_hash sample_remote
    no_match_matcher benign_searcher [] "What time is it"
    { intent := some "get_time", entities := some [],
      confidence := some (mkRat 9 10), requires_confirmation := some false }
    0 0 rfl rfl (by decide) rfl rfl (by norm_num [sample_ai_config])

/-- C4: resolution is modelled as a total function — no exception escapes
`process_command` — and in the worst case (remote path disabled, or failing
with no cached entry; nonempty utterance; no fallback pattern matches) it
returns the `general_query` Command with confidence `0.3` and
`requires_confirmation = false`.  The empty string short-circuits earlier
still, to the distinguished "error" Command, likewise without raising. -/
theorem resolve_no_match_returns_general_query
    (cfg : AIConfig) (keyHash : KeyHash) (remote : Remote)
    (M : Matcher) (S : Searcher) (cache : Cache) (now : Time) (text : String)
    (hne : ¬ pyStrip text = "")
    (hnm : ∀ intent pats pat, (intent, pats) ∈ intent_patterns → pat ∈ pats →
      M pat (pyLower (pyStrip (pyStrip text))) = Option.none)
    (hoff : cfg.use_openai = false ∨
      ((∀ u, remote u = Option.none) ∧
        Cache.find cache (get_cache_key keyHash (pyStrip text)) = Option.none)) :
    (NLPProcessor.process_command cfg keyHash remote M S now cache text).1 =
      { intent := "general_query",
        entities := [("query", EVal.str (pyLower (pyStrip (pyStrip text))))],
        confidence := mkRat 3 10,
        requires_confirmation := false,
        raw_text := pyLower (pyStrip (pyStrip text)),
        processing_method := "fallback",
        timestamp := now } := by
  have hfb : FallbackProcessor.process_command M S now (pyStrip text) =
      { intent := "general_query",
        entities := [("query", EVal.str (pyLower (pyStrip (pyStrip text))))],
        confidence := mkRat 3 10,
        requires_confirmation := false,
        raw_text := pyLower (pyStrip (pyStrip text)),
        processing_method := "fallback",
        timestamp := now } := by
    unfold FallbackProcessor.process_command
    dsimp only
    rw [first_pattern_match_none M (pyLower (pyStrip (pyStrip text))) intent_patterns
      (fun intent pats pat hm hp => hnm intent pats pat hm hp)]
  by_cases huse : cfg.use_openai = true
  · rcases hoff with hoff | ⟨hrm, hmiss⟩
    · rw [huse] at hoff
      exact absurd hoff (by simp)
    · have hget : get_cached_response cfg keyHash now cache (pyStrip text) =
          (Option.none, cache) := by
        unfold get_cached_response
        by_cases hcr : cfg.cache_responses = true
        · rw [hcr]
          simp [hmiss]
        · rw [Bool.not_eq_true] at hcr
          rw [hcr]
          simp
      have hpo : process_with_openai cfg keyHash remote now cache (pyStrip text) =
          (Option.none, cache, 1) := by
        unfold process_with_openai
        split_ifs with hcr <;> simp [hget, hrm]
      unfold NLPProcessor.process_command
      rw [if_neg hne, huse]
      simp only [if_true, hpo, hfb]
  · rw [Bool.not_eq_true] at huse
    unfold NLPProcessor.process_command
    rw [if_neg hne, huse]
    simp only [Bool.false_eq_true, if_false, hfb]

/-- Witness for C4: "zzz buzz" with the remote path disabled and a matcher
on which nothing matches. -/
theorem resolve_no_match_returns_general_query_witness :
    (NLPProcessor.process_command offline_ai_config id_key_hash failing_remote
        no_match_matcher benign_searcher 0 [] "zzz buzz").1 =
      { intent := "general_query",
        entities := [("query", EVal.str (pyLower (pyStrip (pyStrip "zzz buzz"))))],
        confidence := mkRat 3 10,
        requires_confirmation := false,
        raw_text := pyLower (pyStrip (pyStrip "zzz buzz")),
        processing_method := "fallback",
        timestamp := 0 } :=
  resolve_no_match_returns_general_query offline_ai_config id_key_hash failing_remote
    no_match_matcher benign_searcher [] 0 "zzz buzz" (by decide)
    (fun _ _ _ _ _ => rfl) (Or.inl rfl)


/-- C6: `undo_last_command` scans the history newest-first for the first
successful entry.  If that entry is `open_app` with
`entities = {app_name: "Chrome"}`, it synthesizes the inverse `close_app`
Command with the same entities and `requires_confirmation = false` and
re-submits it through `dispatch_command` (so it is re-validated, by the
definition of `dispatch_command`).  If the first successful entry's intent
is outside the whitelist `{open_app, close_app, play_music}`, it returns the
"Cannot undo" result immediately — for every value of `older`, i.e. without
scanning past that entry. -/
theorem undo_synthesizes_inverse_and_stops_at_first_success
    (handlers : Handlers) (now : Time) (older newer : List CommandHistory)
    (e : CommandHistory) (mx ce cf : Nat) (lt : Option Time)
    (hnew : ∀ x ∈ newer, x.result.success = false)
    (hs : e.result.success = true) :
    (e.command.intent = "open_app" →
      e.command.entities = [("app_name", EVal.str "Chrome")] →
      DEvent.dispatchCalled
          { intent := "close_app", entities := e.command.entities,
            confidence := e.command.confidence, requires_confirmation := false,
            raw_text := "Close Chrome",
            processing_method := e.command.processing_method, timestamp := now }
        ∈ (undo_last_command handlers now
            ⟨older ++ e :: newer, mx, ce, cf, lt, false⟩).2)
    ∧ (e.command.intent ∉ ["open_app", "close_app", "play_music"] →
        undo_last_command handlers now ⟨older ++ e :: newer, mx, ce, cf, lt, false⟩ =
          (DOut.ok ({ success := false,
                      message := "Cannot undo command: " ++ e.command.intent,
                      timestamp := now },
            ⟨older ++ e :: newer, mx, ce, cf, lt, false⟩), [])) := by
  have hne : (older ++ e :: newer : List CommandHistory) ≠ [] := by simp
  have hrev : (older ++ e :: newer).reverse = newer.reverse ++ e :: older.reverse := by
    simp [List.reverse_append]
  have hmain : undo_last_command handlers now ⟨older ++ e :: newer, mx, ce, cf, lt, false⟩ =
      (match undo_scan handlers now ⟨older ++ e :: newer, mx, ce, cf, lt, true⟩
          (e :: older.reverse) with
        | (DOut.ok (r, s2), evs) =>
          (DOut.ok (r, { s2 with history_lock_held := false }), evs)
        | (DOut.deadlock, evs) => (DOut.deadlock, evs)) := by
    unfold undo_last_command
    dsimp only
    rw [if_neg hne, hrev,
      undo_scan_append_failures handlers now _ newer.reverse (e :: older.reverse)
        (fun x hx => hnew x (List.mem_reverse.mp hx))]
    simp
  constructor
  · intro hio hent
    have huc : create_undo_command now e.command =
        some { intent := "close_app", entities := e.command.entities,
               confidence := e.command.confidence, requires_confirmation := false,
               raw_text := "Close Chrome",
               processing_method := e.command.processing_method, timestamp := now } := by
      unfold create_undo_command
      rw [hio, hent]
      simp [Entities.get, EVal.toPyString]
    have hscan : undo_scan handlers now ⟨older ++ e :: newer, mx, ce, cf, lt, true⟩
        (e :: older.reverse) =
        dispatch_command handlers now
          { intent := "close_app", entities := e.command.entities,
            confidence := e.command.confidence, requires_confirmation := false,
            raw_text := "Close Chrome",
            processing_method := e.command.processing_method, timestamp := now }
          ⟨older ++ e :: newer, mx, ce, cf, lt, true⟩ := by
      unfold undo_scan
      rw [hs, hio, huc]
      simp
    rw [hmain, hscan]
    have hmem := dispatchCalled_mem_dispatch_events handlers now
      { intent := "close_app", entities := e.command.entities,
        confidence := e.command.confidence, requires_confirmation := false,
        raw_text := "Close Chrome",
        processing_method := e.command.processing_method, timestamp := now }
      ⟨older ++ e :: newer, mx, ce, cf, lt, true⟩
    rcases hd : dispatch_command handlers now
        { intent := "close_app", entities := e.command.entities,
          confidence := e.command.confidence, requires_confirmation := false,
          raw_text := "Close Chrome",
          processing_method := e.command.processing_method, timestamp := now }
        ⟨older ++ e :: newer, mx, ce, cf, lt, true⟩ with ⟨out, evs⟩
    rw [hd] at hmem
    rcases out with ⟨r, s2⟩ | _ <;> simpa using hmem
  · intro hni
    have hscan2 : undo_scan handlers now ⟨older ++ e :: newer, mx, ce, cf, lt, true⟩
        (e :: older.reverse) =
        (DOut.ok ({ success := false,
                    message := "Cannot undo command: " ++ e.command.intent,
                    timestamp := now },
          ⟨older ++ e :: newer, mx, ce, cf, lt, true⟩), []) := by
      unfold undo_scan
      rw [hs]
      simp [hni]
    rw [hmain, hscan2]

/-- C7 (implicit): `undo_last_command` holds the non-reentrant history lock
while it re-dispatches the synthesized inverse Command; whenever that
Command passes validation, has a registered handler (and, by construction,
no confirmation flag), the nested `_record_command` tries to re-acquire the
same lock and the call never returns — modelled as the `DOut.deadlock`
outcome, reached right after the handler invocation event. -/
theorem undo_last_command_self_deadlocks
    (handlers : Handlers) (now : Time) (older newer : List CommandHistory)
    (e : CommandHistory) (mx ce cf : Nat) (lt : Option Time)
    (uc : CommandResult) (f : CommandResult → ExecutionResult) (ev : Option String)
    (hnew : ∀ x ∈ newer, x.result.success = false)
    (hs : e.result.success = true)
    (hw : e.command.intent ∈ ["open_app", "close_app", "play_music"])
    (huc : create_undo_command now e.command = some uc)
    (hv : CommandValidator.validate_command uc = (true, ev))
    (hhand : handlers uc.intent = some f) :
    undo_last_command handlers now ⟨older ++ e :: newer, mx, ce, cf, lt, false⟩ =
      (DOut.deadlock,
        [DEvent.dispatchCalled uc, DEvent.handlerInvoked uc.intent]) := by
  have hne : (older ++ e :: newer : List CommandHistory) ≠ [] := by simp
  have hrev : (older ++ e :: newer).reverse = newer.reverse ++ e :: older.reverse := by
    simp [List.reverse_append]
  have hmain : undo_last_command handlers now ⟨older ++ e :: newer, mx, ce, cf, lt, false⟩ =
      (match undo_scan handlers now ⟨older ++ e :: newer, mx, ce, cf, lt, true⟩
          (e :: older.reverse) with
        | (DOut.ok (r, s2), evs) =>
          (DOut.ok (r, { s2 with history_lock_held := false }), evs)
        | (DOut.deadlock, evs) => (DOut.deadlock, evs)) := by
    unfold undo_last_command
    dsimp only
    rw [if_neg hne, hrev,
      undo_scan_append_failures handlers now _ newer.reverse (e :: older.reverse)
        (fun x hx => hnew x (List.mem_reverse.mp hx))]
    simp
  have hscan : undo_scan handlers now ⟨older ++ e :: newer, mx, ce, cf, lt, true⟩
      (e :: older.reverse) =
      dispatch_command handlers now uc ⟨older ++ e :: newer, mx, ce, cf, lt, true⟩ := by
    unfold undo_scan
    rw [hs, huc]
    simp [hw]
  have hdead := dispatch_command_locked_deadlock handlers now uc
    ⟨older ++ e :: newer, mx, ce, cf, lt, true⟩ f ev hv hhand
    (create_undo_command_not_confirm now e.command uc huc) rfl
  rw [hmain, hscan, hdead]


/-- Witness for C6: a history with one successful `open_chrome_cmd` entry
(inverse dispatched) and one with a successful `weather_cmd` entry
("Cannot undo"). -/
theorem undo_synthesizes_inverse_and_stops_at_first_success_witness :
    DEvent.dispatchCalled
        { intent := "close_app", entities := open_chrome_cmd.entities,
          confidence := open_chrome_cmd.confidence, requires_confirmation := false,
          raw_text := "Close Chrome",
          processing_method := open_chrome_cmd.processing_method, timestamp := 1 }
      ∈ (undo_last_command sample_handlers 1
          ⟨[] ++ ⟨open_chrome_cmd, sample_ok_result, 0⟩ :: [],
           100, 0, 0, Option.none, false⟩).2 ∧
    undo_last_command sample_handlers 1
        ⟨[] ++ ⟨weather_cmd, sample_ok_result, 0⟩ :: [],
         100, 0, 0, Option.none, false⟩ =
      (DOut.ok ({ success := false,
                  message := "Cannot undo command: "
                    ++ (⟨weather_cmd, sample_ok_result, 0⟩ : CommandHistory).command.intent,
                  timestamp := 1 },
        ⟨[] ++ ⟨weather_cmd, sample_ok_result, 0⟩ :: [],
         100, 0, 0, Option.none, false⟩), []) :=
  ⟨(undo_synthesizes_inverse_and_stops_at_first_success sample_handlers 1 [] []
      ⟨open_chrome_cmd, sample_ok_result, 0⟩ 100 0 0 Option.none
      (fun x hx => absurd hx (List.not_mem_nil x)) rfl).1 rfl rfl,
   (undo_synthesizes_inverse_and_stops_at_first_success sample_handlers 1 [] []
      ⟨weather_cmd, sample_ok_result, 0⟩ 100 0 0 Option.none
      (fun x hx => absurd hx (List.not_mem_nil x)) rfl).2 (by decide)⟩

/-- Witness for C7: undoing after a successful `open_chrome_cmd` deadlocks
inside the nested dispatch of `close_chrome_cmd`. -/
theorem undo_last_command_self_deadlocks_witness :
    undo_last_command sample_handlers 1
        ⟨[] ++ ⟨open_chrome_cmd, sample_ok_result, 0⟩ :: [],
         100, 0, 0, Option.none, false⟩ =
      (DOut.deadlock,
        [DEvent.dispatchCalled close_chrome_cmd,
         DEvent.handlerInvoked close_chrome_cmd.intent]) :=
  undo_last_command_self_deadlocks sample_handlers 1 [] []
    ⟨open_chrome_cmd, sample_ok_result, 0⟩ 100 0 0 Option.none close_chrome_cmd
    (fun _ => sample_ok_result) Option.none
    (fun x hx => absurd hx (List.not_mem_nil x)) rfl (by decide) (by decide)
    (by decide) rfl

end Jarvis
